import Mathlib

/-!
Verification of the connection-lifecycle manager in
`src/RNWebsocket.ts` (class `RNWebSocket`), shallowly embedded in Lean.

The manager's mutable fields become a `WSState` record; every method of
the class becomes a pure function `WSState → WSState × List WSEvent`
whose event list is the sequence of `emit` calls the method performs, in
order.  Transport notifications (`onopen`, `onclose`, `onerror`,
`onmessage`) are the handler closures installed by
`setupEventListeners`, modelled as functions of the same shape; the
environment (the transport) chooses when they run.  The connection
timeout is modelled by a state field holding the armed delay plus an
explicit `connectionTimeoutFire` step for the timer callback.

Nondeterminism of the outside world is made explicit by parameters:
`ctorFails` (does `new WebSocket(...)` throw synchronously) and
`sendFails` (does `ws.send` throw).  Two ghost counters,
`socketsCreated` (number of completed `new WebSocket(...)` calls) and
`transportSends` (number of `ws.send(...)` invocations), record the
manager's observable interactions with the transport; no modelled code
branches on them.
-/

/-- Modelled from the spec: the `WebSocketStatus` enumeration of
`src/constants.ts`, which is not part of the provided sources.  Per the
spec its domain is `{CONNECTING, CONNECTED, DISCONNECTED, RECONNECTING,
CLOSED}`, the last two declared but never assigned by the state
machine. -/
inductive WebSocketStatus where
  | CONNECTING
  | CONNECTED
  | DISCONNECTED
  | RECONNECTING
  | CLOSED
deriving DecidableEq, Repr

/-- `WebSocketOptions` from `src/types.ts`, after the constructor's
defaulting merge (every field present).  `protocols` and `headers` are
carried for completeness; the embedded logic, like the source class,
only reads `maxReconnectAttempts` and `reconnectInterval` (the source
passes `protocols` to the transport constructor and never reads
`timeout` or `reconnect`). -/
structure WebSocketOptions where
  protocols : Option (List String)
  headers : Option (List (String × String))
  timeout : Nat
  reconnect : Bool
  maxReconnectAttempts : Nat
  reconnectInterval : Nat
deriving DecidableEq, Repr

/-- One event emitted through the manager's `emit`, tagged with the
payload the source passes: the new status for `statusChange`, the
`WebSocketError` code and message for `error`. -/
inductive WSEvent where
  | statusChange (status : WebSocketStatus)
  | connect
  | disconnect
  | message
  | error (code : Int) (msg : String)
deriving DecidableEq, Repr

/-- The mutable fields of class `RNWebSocket`, plus the two ghost
interaction counters.  `wsLive` is `this.ws !== null`;
`connectionTimeout` is `some d` when a connection timer armed with
delay `d` is pending. -/
structure WSState where
  status : WebSocketStatus
  manualClose : Bool
  reconnectCount : Nat
  wsLive : Bool
  connectionTimeout : Option Nat
  socketsCreated : Nat
  transportSends : Nat
deriving DecidableEq, Repr

/-- The constructor's field initialisation (lines 119-131). -/
def initState : WSState :=
  { status := WebSocketStatus.DISCONNECTED
    manualClose := false
    reconnectCount := 0
    wsLive := false
    connectionTimeout := none
    socketsCreated := 0
    transportSends := 0 }

namespace RNWebSocket

/-- `updateStatus` (lines 158-161): assign the field, then
`emit('statusChange', newStatus)`. -/
def updateStatus (s : WSState) (newStatus : WebSocketStatus) :
    WSState × List WSEvent :=
  ({ s with status := newStatus }, [WSEvent.statusChange newStatus])

/-- `handleError` (lines 256-258): `emit('error', error)`. -/
def handleError (s : WSState) (code : Int) (msg : String) :
    WSState × List WSEvent :=
  (s, [WSEvent.error code msg])

/-- `startConnectionTimeout` (lines 294-305): arm a timer.  The source
passes `this.config.reconnectInterval` as the `setTimeout` delay. -/
def startConnectionTimeout (cfg : WebSocketOptions) (s : WSState) : WSState :=
  { s with connectionTimeout := some cfg.reconnectInterval }

/-- `clearConnectionTimeout` (lines 310-315): guarded by
`if (this.connectionTimeout)`. -/
def clearConnectionTimeout (s : WSState) : WSState :=
  if s.connectionTimeout.isSome then { s with connectionTimeout := none }
  else s

/-- `connect` (lines 167-186).  `ctorFails` models
`new WebSocket(this.url, this.config.protocols)` throwing
synchronously; on the throw, the `this.ws` assignment never completes
and the catch block only reports a code-0 error. -/
def connect (cfg : WebSocketOptions) (ctorFails : Bool) (s : WSState) :
    WSState × List WSEvent :=
  if s.status = WebSocketStatus.CONNECTING ∨
      s.status = WebSocketStatus.CONNECTED then
    (s, [])
  else
    let s1 := { s with manualClose := false }
    let r1 := updateStatus s1 WebSocketStatus.CONNECTING
    if ctorFails then
      let r2 := handleError r1.1 0 "Websocket connection error"
      (r2.1, r1.2 ++ r2.2)
    else
      let s2 := { r1.1 with wsLive := true,
                            socketsCreated := r1.1.socketsCreated + 1 }
      let s3 := startConnectionTimeout cfg s2
      (s3, r1.2)

/-- `handleReconnection` (lines 281-292).  The JS guard
`this.config.maxReconnectAttempts && this.config.maxReconnectAttempts <
this.reconnectCount` is falsy when the ceiling is `0` (unlimited) and
blocks only once the counter strictly exceeds the ceiling. -/
def handleReconnection (cfg : WebSocketOptions) (ctorFails : Bool)
    (s : WSState) : WSState × List WSEvent :=
  if s.manualClose ∨
      (cfg.maxReconnectAttempts ≠ 0 ∧
        cfg.maxReconnectAttempts < s.reconnectCount) then
    handleError s 1 "Reconnect attempts exceeded"
  else
    let s1 := { s with reconnectCount := s.reconnectCount + 1 }
    connect cfg ctorFails s1

/-- The `onopen` handler installed by `setupEventListeners`
(lines 194-199): clear the timer, `updateStatus(CONNECTED)`,
`resetReconnectCount`, `emit('connect')`. -/
def onopen (s : WSState) : WSState × List WSEvent :=
  let s1 := clearConnectionTimeout s
  let r1 := updateStatus s1 WebSocketStatus.CONNECTED
  let s2 := { r1.1 with reconnectCount := 0 }
  (s2, r1.2 ++ [WSEvent.connect])

/-- The `onclose` handler (lines 201-209): `updateStatus(DISCONNECTED)`,
`emit('disconnect')`, then `handleReconnection()` unless the closure
was manual. -/
def onclose (cfg : WebSocketOptions) (ctorFails : Bool) (s : WSState) :
    WSState × List WSEvent :=
  let r1 := updateStatus s WebSocketStatus.DISCONNECTED
  let e2 := r1.2 ++ [WSEvent.disconnect]
  if r1.1.manualClose then (r1.1, e2)
  else
    let r2 := handleReconnection cfg ctorFails r1.1
    (r2.1, e2 ++ r2.2)

/-- The `onerror` handler (lines 211-217): report a code-0 error, no
state change. -/
def onerror (s : WSState) : WSState × List WSEvent :=
  handleError s 0 "WebSocket error"

/-- The `onmessage` handler (lines 219-225) via `handleMessage`
(lines 228-230): `emit('message', ...)`. -/
def onmessage (s : WSState) : WSState × List WSEvent :=
  (s, [WSEvent.message])

/-- `send` (lines 232-251).  `sendFails` models `this.ws?.send(data)`
throwing.  The optional chain performs a transport call only when
`this.ws` is non-null. -/
def send (sendFails : Bool) (s : WSState) : WSState × List WSEvent :=
  if s.status ≠ WebSocketStatus.CONNECTED then
    handleError s (-1) "Cannot send message: WebSocket is not connected"
  else if s.wsLive then
    let s1 := { s with transportSends := s.transportSends + 1 }
    if sendFails then handleError s1 (-1) "Failed to send message"
    else (s1, [])
  else
    (s, [])

/-- `disconnect` (lines 260-267): clear the timer, `ws.close()` and
null the handle if present, then assign
`this.status = WebSocketStatus.DISCONNECTED` directly — no
`updateStatus`, no `emit`. -/
def disconnect (s : WSState) : WSState :=
  let s1 := clearConnectionTimeout s
  let s2 := if s1.wsLive then { s1 with wsLive := false } else s1
  { s2 with status := WebSocketStatus.DISCONNECTED }

/-- `close` (lines 273-276): set the manual-close flag, then
`disconnect()`.  Emits nothing itself. -/
def close (s : WSState) : WSState × List WSEvent :=
  (disconnect { s with manualClose := true }, [])

/-- The `setTimeout` callback armed by `startConnectionTimeout`
(lines 295-303): if status is still not `CONNECTED`, report a code-0
timeout error and `disconnect()`. -/
def connectionTimeoutFire (s : WSState) : WSState × List WSEvent :=
  if s.status ≠ WebSocketStatus.CONNECTED then
    let r1 := handleError s 0 "Connection timeout"
    (disconnect r1.1, r1.2)
  else
    (s, [])

end RNWebSocket

/-- One stimulus the environment or the caller can apply to the
manager. -/
inductive WSInput where
  | connect (ctorFails : Bool)
  | close
  | send (sendFails : Bool)
  | transportOpen
  | transportClose (ctorFails : Bool)
  | transportError
  | transportMessage
  | timerFire
deriving DecidableEq, Repr

/-- Apply one stimulus. -/
def step (cfg : WebSocketOptions) (i : WSInput) (s : WSState) :
    WSState × List WSEvent :=
  match i with
  | WSInput.connect f => RNWebSocket.connect cfg f s
  | WSInput.close => RNWebSocket.close s
  | WSInput.send f => RNWebSocket.send f s
  | WSInput.transportOpen => RNWebSocket.onopen s
  | WSInput.transportClose f => RNWebSocket.onclose cfg f s
  | WSInput.transportError => RNWebSocket.onerror s
  | WSInput.transportMessage => RNWebSocket.onmessage s
  | WSInput.timerFire => RNWebSocket.connectionTimeoutFire s

/-- Run a sequence of stimuli, accumulating the emitted events in
order. -/
def run (cfg : WebSocketOptions) : List WSInput → WSState →
    WSState × List WSEvent
  | [], s => (s, [])
  | i :: is, s =>
    let r1 := step cfg i s
    let r2 := run cfg is r1.1
    (r2.1, r1.2 ++ r2.2)

/-- Does an event carry the code-1 exhaustion error? -/
def isExhaustionError (e : WSEvent) : Bool :=
  match e with
  | WSEvent.error 1 _ => true
  | _ => false

/-- The state the manager is in while a connection attempt is in
flight during an unexpected-closure storm: `c` failed-reconnect
increments so far, `k` transports constructed so far. -/
def midState (ri c k : Nat) : WSState :=
  { status := WebSocketStatus.CONNECTING
    manualClose := false
    reconnectCount := c
    wsLive := true
    connectionTimeout := some ri
    socketsCreated := k
    transportSends := 0 }

/-- Events emitted by `n` consecutive unexpected closures that each
trigger a fresh reconnect attempt. -/
def attemptTrace : Nat → List WSEvent
  | 0 => []
  | n + 1 =>
    [WSEvent.statusChange WebSocketStatus.DISCONNECTED, WSEvent.disconnect,
      WSEvent.statusChange WebSocketStatus.CONNECTING] ++ attemptTrace n

theorem run_append (cfg : WebSocketOptions) (l1 l2 : List WSInput)
    (s : WSState) :
    run cfg (l1 ++ l2) s =
      ((run cfg l2 (run cfg l1 s).1).1,
        (run cfg l1 s).2 ++ (run cfg l2 (run cfg l1 s).1).2) := by
  induction l1 generalizing s with
  | nil => simp [run]
  | cons i is ih => simp [run, ih]

theorem onclose_attempt (p : Option (List String))
    (hd : Option (List (String × String))) (t : Nat) (r : Bool)
    (N ri c k : Nat) (h : ¬ (N ≠ 0 ∧ N < c)) :
    RNWebSocket.onclose ⟨p, hd, t, r, N, ri⟩ false (midState ri c k) =
      (midState ri (c + 1) (k + 1),
        [WSEvent.statusChange WebSocketStatus.DISCONNECTED, WSEvent.disconnect,
          WSEvent.statusChange WebSocketStatus.CONNECTING]) := by
  simp [RNWebSocket.onclose, RNWebSocket.updateStatus,
    RNWebSocket.handleReconnection, RNWebSocket.connect,
    RNWebSocket.handleError, RNWebSocket.startConnectionTimeout, midState, h]

theorem onclose_exhaust (p : Option (List String))
    (hd : Option (List (String × String))) (t : Nat) (r : Bool)
    (N ri c k : Nat) (h1 : N ≠ 0) (h2 : N < c) :
    RNWebSocket.onclose ⟨p, hd, t, r, N, ri⟩ false (midState ri c k) =
      ({ midState ri c k with status := WebSocketStatus.DISCONNECTED },
        [WSEvent.statusChange WebSocketStatus.DISCONNECTED, WSEvent.disconnect,
          WSEvent.error 1 "Reconnect attempts exceeded"]) := by
  simp [RNWebSocket.onclose, RNWebSocket.updateStatus,
    RNWebSocket.handleReconnection, RNWebSocket.handleError, midState, h1, h2]

theorem run_closes_phase (p : Option (List String))
    (hd : Option (List (String × String))) (t : Nat) (r : Bool)
    (N ri : Nat) :
    ∀ n c k, c + n ≤ N + 1 →
      run ⟨p, hd, t, r, N, ri⟩
          (List.replicate n (WSInput.transportClose false)) (midState ri c k) =
        (midState ri (c + n) (k + n), attemptTrace n) := by
  intro n
  induction n with
  | zero => intro c k _; simp [run, attemptTrace]
  | succ m ih =>
    intro c k hle
    have hc : ¬ (N ≠ 0 ∧ N < c) := by
      intro hcon
      omega
    have h1 : run ⟨p, hd, t, r, N, ri⟩
        (List.replicate m (WSInput.transportClose false))
        (midState ri (c + 1) (k + 1)) =
        (midState ri (c + 1 + m) (k + 1 + m), attemptTrace m) := by
      exact ih (c + 1) (k + 1) (by omega)
    have hc1 : c + 1 + m = c + (m + 1) := by omega
    have hk1 : k + 1 + m = k + (m + 1) := by omega
    simp [List.replicate_succ, run, step, onclose_attempt p hd t r N ri c k hc,
      h1, hc1, hk1, attemptTrace]

theorem attemptTrace_no_exhaustion (n : Nat) :
    (attemptTrace n).countP isExhaustionError = 0 := by
  induction n with
  | zero => simp [attemptTrace]
  | succ m ih => simp [attemptTrace, List.countP_cons, isExhaustionError, ih]

theorem connect_from_init (p : Option (List String))
    (hd : Option (List (String × String))) (t : Nat) (r : Bool)
    (N ri : Nat) :
    RNWebSocket.connect ⟨p, hd, t, r, N, ri⟩ false initState =
      (midState ri 0 1,
        [WSEvent.statusChange WebSocketStatus.CONNECTING]) := by
  simp [RNWebSocket.connect, RNWebSocket.updateStatus,
    RNWebSocket.startConnectionTimeout, initState, midState]

/-- The full run of the amended reconnect-exhaustion scenario: one
manual `connect`, then `N + 2` consecutive unexpected closures, with
`reconnect := true` in the configuration. -/
def c1run (p : Option (List String)) (hd : Option (List (String × String)))
    (t ri N : Nat) : WSState × List WSEvent :=
  run ⟨p, hd, t, true, N, ri⟩
    (WSInput.connect false ::
      List.replicate (N + 2) (WSInput.transportClose false))
    initState

theorem run_cons (cfg : WebSocketOptions) (i : WSInput) (is : List WSInput)
    (s : WSState) :
    run cfg (i :: is) s =
      ((run cfg is (step cfg i s).1).1,
        (step cfg i s).2 ++ (run cfg is (step cfg i s).1).2) := rfl

theorem run_single (cfg : WebSocketOptions) (i : WSInput) (s : WSState) :
    run cfg [i] s = step cfg i s := by
  simp [run]

/-- C1 (amended): with `maxReconnectAttempts = N > 0` and
`reconnect := true`, an unexpected-closure storm triggers `N + 1`
automatic reconnect attempts (one more than the configured ceiling)
before exhaustion: after one manual `connect` and `N + 2` unexpected
closures, `N + 2` transports were constructed in total (the manual
attempt plus `N + 1` automatic ones), exactly one code-1 exhaustion
error was emitted, and status remains `DISCONNECTED` with no further
attempt scheduled. -/
theorem c1_reconnect_ceiling_amended (p : Option (List String))
    (hd : Option (List (String × String))) (t ri N : Nat) (hN : 1 ≤ N) :
    (c1run p hd t ri N).1.socketsCreated = N + 2 ∧
    (c1run p hd t ri N).1.status = WebSocketStatus.DISCONNECTED ∧
    (c1run p hd t ri N).2.countP isExhaustionError = 1 := by
  have hrep : List.replicate (N + 2) (WSInput.transportClose false) =
      List.replicate (N + 1) (WSInput.transportClose false) ++
        [WSInput.transportClose false] :=
    List.replicate_succ' (N + 1) (WSInput.transportClose false)
  have hA : run ⟨p, hd, t, true, N, ri⟩
      (List.replicate (N + 1) (WSInput.transportClose false))
      (midState ri 0 1) =
      (midState ri (N + 1) (N + 2), attemptTrace (N + 1)) := by
    have h0 : 0 + (N + 1) = N + 1 := by omega
    have h1 : 1 + (N + 1) = N + 2 := by omega
    have := run_closes_phase p hd t true N ri (N + 1) 0 1 (by omega)
    rw [h0, h1] at this
    exact this
  have hB : RNWebSocket.onclose ⟨p, hd, t, true, N, ri⟩ false
      (midState ri (N + 1) (N + 2)) =
      ({ midState ri (N + 1) (N + 2) with
          status := WebSocketStatus.DISCONNECTED },
        [WSEvent.statusChange WebSocketStatus.DISCONNECTED, WSEvent.disconnect,
          WSEvent.error 1 "Reconnect attempts exceeded"]) :=
    onclose_exhaust p hd t true N ri (N + 1) (N + 2) (by omega) (by omega)
  have hstep : step ⟨p, hd, t, true, N, ri⟩ (WSInput.connect false) initState =
      (midState ri 0 1, [WSEvent.statusChange WebSocketStatus.CONNECTING]) := by
    simp [step, connect_from_init]
  have hlast : run ⟨p, hd, t, true, N, ri⟩ [WSInput.transportClose false]
      (midState ri (N + 1) (N + 2)) =
      ({ midState ri (N + 1) (N + 2) with
          status := WebSocketStatus.DISCONNECTED },
        [WSEvent.statusChange WebSocketStatus.DISCONNECTED, WSEvent.disconnect,
          WSEvent.error 1 "Reconnect attempts exceeded"]) := by
    rw [run_single]
    simpa [step] using hB
  have hall : c1run p hd t ri N =
      ({ midState ri (N + 1) (N + 2) with
          status := WebSocketStatus.DISCONNECTED },
        WSEvent.statusChange WebSocketStatus.CONNECTING ::
          (attemptTrace (N + 1) ++
            [WSEvent.statusChange WebSocketStatus.DISCONNECTED,
              WSEvent.disconnect,
              WSEvent.error 1 "Reconnect attempts exceeded"])) := by
    unfold c1run
    rw [hrep, run_cons, hstep]
    simp only [run_append, hA, hlast]
    rfl
  rw [hall]
  refine ⟨by simp [midState], by simp [midState], ?_⟩
  simp [List.countP_cons, List.countP_append, attemptTrace_no_exhaustion,
    isExhaustionError]

/-- The concrete scenario of claim C1: configuration
`{reconnect := true, maxReconnectAttempts := 2, reconnectInterval := 100}`,
one `connect`, then three unexpected transport closures without an
open. -/
def c1cexRun : WSState × List WSEvent :=
  run ⟨none, none, 5000, true, 2, 100⟩
    (WSInput.connect false ::
      List.replicate 3 (WSInput.transportClose false))
    initState

/-- C1 counterexample: in the claimed scenario (max 2, three unexpected
closures) the code makes 3 reconnect attempts, not 2 (4 transports
constructed in total, not 3), emits no code-1 error at all, and leaves
status `CONNECTING`, not `DISCONNECTED`. -/
theorem c1_counterexample :
    c1cexRun.1.socketsCreated = 4 ∧
    ¬ c1cexRun.1.socketsCreated = 3 ∧
    c1cexRun.2.countP isExhaustionError = 0 ∧
    c1cexRun.1.status = WebSocketStatus.CONNECTING ∧
    ¬ c1cexRun.1.status = WebSocketStatus.DISCONNECTED := by
  decide

/-- C1 witness: the amended ceiling theorem instantiated at
`maxReconnectAttempts = 2`. -/
theorem c1_reconnect_ceiling_amended_witness :
    1 ≤ 2 ∧
    ((c1run none none 5000 100 2).1.socketsCreated = 2 + 2 ∧
      (c1run none none 5000 100 2).1.status = WebSocketStatus.DISCONNECTED ∧
      (c1run none none 5000 100 2).2.countP isExhaustionError = 1) :=
  ⟨by decide, c1_reconnect_ceiling_amended none none 5000 100 2 (by decide)⟩

/-- The configuration of the C2 scenario: `timeout := 50`,
`reconnectInterval := 100`. -/
def cfgC2 : WebSocketOptions := ⟨none, none, 50, false, 0, 100⟩

/-- C2: the connection timer is armed with `config.reconnectInterval`,
not `config.timeout` — `config.timeout` is never read.  With
`timeout := 50` and `reconnectInterval := 100`, `connect` arms the
timer for 100 units, not the configured timeout of 50; when that timer
fires before an open, a code-0 timeout error is emitted and status
becomes `DISCONNECTED` (the claimed error and status effects hold, but
at the wrong delay). -/
theorem c2_timer_armed_with_reconnect_interval :
    (∀ (cfg : WebSocketOptions) (s : WSState),
      (RNWebSocket.startConnectionTimeout cfg s).connectionTimeout =
        some cfg.reconnectInterval) ∧
    (RNWebSocket.connect cfgC2 false initState).1.connectionTimeout =
      some 100 ∧
    cfgC2.timeout = 50 ∧
    ¬ (RNWebSocket.connect cfgC2 false initState).1.connectionTimeout =
        some cfgC2.timeout ∧
    (RNWebSocket.connectionTimeoutFire
        (RNWebSocket.connect cfgC2 false initState).1).2 =
      [WSEvent.error 0 "Connection timeout"] ∧
    (RNWebSocket.connectionTimeoutFire
        (RNWebSocket.connect cfgC2 false initState).1).1.status =
      WebSocketStatus.DISCONNECTED := by
  refine ⟨fun cfg s => rfl, ?_, rfl, ?_, ?_, ?_⟩ <;> decide

/-- The configuration used for the C3 counterexample (field values are
immaterial: `connect` reads none of them on the failure path). -/
def cfgC3 : WebSocketOptions := ⟨none, none, 5000, false, 0, 1000⟩

/-- C3 counterexample: when transport construction throws on a
`connect` from `DISCONNECTED`, the code-0 error is reported, but the
state is not left unchanged — the transition to `CONNECTING`, committed
before the construction attempt, is never rolled back, so status is
`CONNECTING`, not `DISCONNECTED`, when `connect` returns. -/
theorem c3_counterexample :
    (RNWebSocket.connect cfgC3 true initState).1.status =
      WebSocketStatus.CONNECTING ∧
    ¬ (RNWebSocket.connect cfgC3 true initState).1.status =
        WebSocketStatus.DISCONNECTED ∧
    (RNWebSocket.connect cfgC3 true initState).2 =
      [WSEvent.statusChange WebSocketStatus.CONNECTING,
        WSEvent.error 0 "Websocket connection error"] := by
  decide

/-- C3 (amended): on a `connect` from any non-`CONNECTING`,
non-`CONNECTED` state whose transport construction throws
synchronously, a code-0 error is reported, and the manager is left with
the `CONNECTING` transition committed (status `CONNECTING`, manual-close
flag cleared); no transport field, timer, or counter changes. -/
theorem c3_ctor_failure_amended (cfg : WebSocketOptions) (s : WSState)
    (h1 : ¬ s.status = WebSocketStatus.CONNECTING)
    (h2 : ¬ s.status = WebSocketStatus.CONNECTED) :
    RNWebSocket.connect cfg true s =
      ({ s with manualClose := false, status := WebSocketStatus.CONNECTING },
        [WSEvent.statusChange WebSocketStatus.CONNECTING,
          WSEvent.error 0 "Websocket connection error"]) := by
  simp [RNWebSocket.connect, RNWebSocket.updateStatus,
    RNWebSocket.handleError, h1, h2]

/-- C3 witness: the amended statement at the initial state. -/
theorem c3_ctor_failure_amended_witness :
    RNWebSocket.connect cfgC3 true initState =
      ({ initState with manualClose := false
                        status := WebSocketStatus.CONNECTING },
        [WSEvent.statusChange WebSocketStatus.CONNECTING,
          WSEvent.error 0 "Websocket connection error"]) :=
  c3_ctor_failure_amended cfgC3 initState (by decide) (by decide)

/-- C4: the `reconnect` configuration flag has no influence on the
manager: two runs over the same stimulus sequence from the same state,
whose configurations differ only in the `reconnect` field, produce the
same final state and the same emitted events — the reconnection policy
consults only the manual-close flag, the counter, and
`maxReconnectAttempts`. -/
theorem c4_reconnect_flag_no_influence (p : Option (List String))
    (hd : Option (List (String × String))) (t m ri : Nat) (r1 r2 : Bool)
    (evs : List WSInput) (s : WSState) :
    run ⟨p, hd, t, r1, m, ri⟩ evs s = run ⟨p, hd, t, r2, m, ri⟩ evs s := by
  induction evs generalizing s with
  | nil => rfl
  | cons i is ih =>
    have hstep : step ⟨p, hd, t, r1, m, ri⟩ i s =
        step ⟨p, hd, t, r2, m, ri⟩ i s := by
      cases i <;> rfl
    rw [run_cons, run_cons, hstep, ih]

/-- C5: `close` always leaves status `DISCONNECTED` and emits nothing
itself; the transport close notification that follows a `close` emits
exactly `statusChange(DISCONNECTED)` then `disconnect`, constructs no
new transport (no reconnect attempt), and leaves status `DISCONNECTED`;
and from an idle disconnected state `close` changes nothing but the
manual-close flag. -/
theorem c5_close_suppresses_reconnect (cfg : WebSocketOptions) (f : Bool)
    (s : WSState) :
    (RNWebSocket.close s).1.status = WebSocketStatus.DISCONNECTED ∧
    (RNWebSocket.close s).2 = [] ∧
    (RNWebSocket.onclose cfg f (RNWebSocket.close s).1).1.socketsCreated =
      (RNWebSocket.close s).1.socketsCreated ∧
    (RNWebSocket.onclose cfg f (RNWebSocket.close s).1).1.status =
      WebSocketStatus.DISCONNECTED ∧
    (RNWebSocket.onclose cfg f (RNWebSocket.close s).1).2 =
      [WSEvent.statusChange WebSocketStatus.DISCONNECTED,
        WSEvent.disconnect] ∧
    (s.status = WebSocketStatus.DISCONNECTED → s.wsLive = false →
      s.connectionTimeout = none →
      RNWebSocket.close s = ({ s with manualClose := true }, [])) := by
  obtain ⟨st, mc, rc, wl, ct, sc, ts⟩ := s
  have hsym : st = WebSocketStatus.DISCONNECTED →
      WebSocketStatus.DISCONNECTED = st := fun h => h.symm
  cases wl <;> cases ct <;>
    simp [RNWebSocket.close, RNWebSocket.disconnect,
      RNWebSocket.clearConnectionTimeout, RNWebSocket.onclose,
      RNWebSocket.updateStatus, RNWebSocket.handleReconnection]
  exact hsym

/-- C5 witness: `close` on the freshly constructed manager only sets
the manual-close flag. -/
theorem c5_close_suppresses_reconnect_witness :
    RNWebSocket.close initState = ({ initState with manualClose := true }, []) :=
  (c5_close_suppresses_reconnect cfgC3 false initState).2.2.2.2.2 rfl rfl rfl

theorem connect_preserves_reconnectCount (cfg : WebSocketOptions) (f : Bool)
    (s : WSState) :
    (RNWebSocket.connect cfg f s).1.reconnectCount = s.reconnectCount := by
  simp only [RNWebSocket.connect, RNWebSocket.updateStatus,
    RNWebSocket.handleError, RNWebSocket.startConnectionTimeout]
  split_ifs <;> rfl

/-- C6: the reconnect counter is reset only by a successful open:
`connect` always preserves it, `onopen` zeroes it, and an exhausted
closure preserves it.  Consequently, from a post-exhaustion state
(counter above a non-zero ceiling, disconnected, not manually closed),
a manual `connect` constructs exactly one transport, and when that
attempt closes unexpectedly the manager immediately emits the code-1
exhaustion error again with zero automatic reconnect attempts, ending
`DISCONNECTED`. -/
theorem c6_counter_reset_only_on_open (cfg : WebSocketOptions) (f : Bool)
    (s : WSState)
    (h1 : ¬ cfg.maxReconnectAttempts = 0)
    (h2 : cfg.maxReconnectAttempts < s.reconnectCount)
    (h3 : s.status = WebSocketStatus.DISCONNECTED)
    (h4 : s.manualClose = false) :
    (∀ (cfg2 : WebSocketOptions) (f2 : Bool) (s2 : WSState),
      (RNWebSocket.connect cfg2 f2 s2).1.reconnectCount =
        s2.reconnectCount) ∧
    (∀ s2 : WSState, (RNWebSocket.onopen s2).1.reconnectCount = 0) ∧
    (RNWebSocket.onclose cfg f s).1.reconnectCount = s.reconnectCount ∧
    (RNWebSocket.connect cfg false s).1.socketsCreated =
      s.socketsCreated + 1 ∧
    (RNWebSocket.onclose cfg f
        (RNWebSocket.connect cfg false s).1).1.socketsCreated =
      s.socketsCreated + 1 ∧
    (RNWebSocket.onclose cfg f (RNWebSocket.connect cfg false s).1).2 =
      [WSEvent.statusChange WebSocketStatus.DISCONNECTED, WSEvent.disconnect,
        WSEvent.error 1 "Reconnect attempts exceeded"] ∧
    (RNWebSocket.onclose cfg f
        (RNWebSocket.connect cfg false s).1).1.status =
      WebSocketStatus.DISCONNECTED := by
  refine ⟨connect_preserves_reconnectCount, ?_, ?_, ?_, ?_, ?_, ?_⟩
  · intro s2
    simp [RNWebSocket.onopen, RNWebSocket.updateStatus,
      RNWebSocket.clearConnectionTimeout]
  all_goals
    simp [RNWebSocket.onclose, RNWebSocket.updateStatus,
      RNWebSocket.handleReconnection, RNWebSocket.handleError,
      RNWebSocket.connect, RNWebSocket.startConnectionTimeout,
      h1, h2, h3, h4]

/-- C6 witness: the post-exhaustion scenario at
`maxReconnectAttempts = 2`, counter 3. -/
theorem c6_counter_reset_only_on_open_witness :
    (RNWebSocket.onclose ⟨none, none, 5000, true, 2, 100⟩ false
        (RNWebSocket.connect ⟨none, none, 5000, true, 2, 100⟩ false
          ⟨WebSocketStatus.DISCONNECTED, false, 3, true, some 100, 4, 0⟩).1).2 =
      [WSEvent.statusChange WebSocketStatus.DISCONNECTED, WSEvent.disconnect,
        WSEvent.error 1 "Reconnect attempts exceeded"] :=
  (c6_counter_reset_only_on_open ⟨none, none, 5000, true, 2, 100⟩ false
    ⟨WebSocketStatus.DISCONNECTED, false, 3, true, some 100, 4, 0⟩
    (by decide) (by decide) rfl rfl).2.2.2.2.2.1

/-- C7: `send` while not `CONNECTED` leaves the state untouched (no
transport call) and emits exactly one code `-1` error; a
transport-level send failure while `CONNECTED` is converted to a code
`-1` error emission (one transport call recorded, no exception
escapes). -/
theorem c7_send_gated_and_error_channel (f : Bool) (s : WSState) :
    (¬ s.status = WebSocketStatus.CONNECTED →
      RNWebSocket.send f s =
        (s, [WSEvent.error (-1)
            "Cannot send message: WebSocket is not connected"])) ∧
    (s.status = WebSocketStatus.CONNECTED → s.wsLive = true →
      RNWebSocket.send true s =
        ({ s with transportSends := s.transportSends + 1 },
          [WSEvent.error (-1) "Failed to send message"])) := by
  constructor
  · intro h
    simp [RNWebSocket.send, RNWebSocket.handleError, h]
  · intro h1 h2
    simp [RNWebSocket.send, RNWebSocket.handleError, h1, h2]

/-- C7 witness: a disconnected `send` and a failing connected
`send`. -/
theorem c7_send_gated_and_error_channel_witness :
    RNWebSocket.send false initState =
      (initState, [WSEvent.error (-1)
        "Cannot send message: WebSocket is not connected"]) ∧
    RNWebSocket.send true
        ⟨WebSocketStatus.CONNECTED, false, 0, true, none, 1, 0⟩ =
      (⟨WebSocketStatus.CONNECTED, false, 0, true, none, 1, 1⟩,
        [WSEvent.error (-1) "Failed to send message"]) :=
  ⟨(c7_send_gated_and_error_channel false initState).1 (by decide),
    (c7_send_gated_and_error_channel true
      ⟨WebSocketStatus.CONNECTED, false, 0, true, none, 1, 0⟩).2 rfl rfl⟩

/-- C8: a `connect` while status is `CONNECTING` or `CONNECTED` is a
complete no-op — the state is returned unchanged in every field and no
event is emitted. -/
theorem c8_redundant_connect_noop (cfg : WebSocketOptions) (f : Bool)
    (s : WSState)
    (h : s.status = WebSocketStatus.CONNECTING ∨
      s.status = WebSocketStatus.CONNECTED) :
    RNWebSocket.connect cfg f s = (s, []) := by
  simp [RNWebSocket.connect, h]

/-- C8 witness: a redundant `connect` in a connected state. -/
theorem c8_redundant_connect_noop_witness :
    RNWebSocket.connect cfgC3 false
        ⟨WebSocketStatus.CONNECTED, false, 0, true, none, 1, 0⟩ =
      (⟨WebSocketStatus.CONNECTED, false, 0, true, none, 1, 0⟩, []) :=
  c8_redundant_connect_noop cfgC3 false
    ⟨WebSocketStatus.CONNECTED, false, 0, true, none, 1, 0⟩ (Or.inr rfl)

/-- C9: for every state, the `onopen` handler emits
`statusChange(CONNECTED)` strictly before the `connect` event, and the
`onclose` handler emits `statusChange(DISCONNECTED)` strictly before
the `disconnect` event (they are the first two emissions of the
transition). -/
theorem c9_statusChange_precedes_lifecycle (cfg : WebSocketOptions)
    (f : Bool) (s : WSState) :
    (RNWebSocket.onopen s).2 =
      [WSEvent.statusChange WebSocketStatus.CONNECTED, WSEvent.connect] ∧
    (RNWebSocket.onclose cfg f s).2.take 2 =
      [WSEvent.statusChange WebSocketStatus.DISCONNECTED,
        WSEvent.disconnect] := by
  constructor
  · rfl
  · by_cases hmc : s.manualClose = true <;>
      simp [RNWebSocket.onclose, RNWebSocket.updateStatus, hmc]

/-- C10: `close` itself emits no event at all (it assigns
`DISCONNECTED` directly, bypassing the status-update path) yet leaves
status `DISCONNECTED`; the connection-timeout callback emits at most a
code-0 error — never a `statusChange` or `disconnect` event; and the
internal `disconnect` always ends with status `DISCONNECTED` without
emitting. -/
theorem c10_shutdown_is_silent (s : WSState) :
    (RNWebSocket.close s).2 = [] ∧
    (RNWebSocket.close s).1.status = WebSocketStatus.DISCONNECTED ∧
    ((RNWebSocket.connectionTimeoutFire s).2 = [] ∨
      (RNWebSocket.connectionTimeoutFire s).2 =
        [WSEvent.error 0 "Connection timeout"]) ∧
    (∀ s2 : WSState, (RNWebSocket.disconnect s2).status =
      WebSocketStatus.DISCONNECTED) := by
  refine ⟨rfl, rfl, ?_, fun s2 => rfl⟩
  unfold RNWebSocket.connectionTimeoutFire
  split
  · exact Or.inr rfl
  · exact Or.inl rfl
